import Mathlib

/-!
Verification of the smokeforge blueprint-validation scripts.

Each definition below is a shallow embedding of a function or code block of
the Python sources under `src/smokeforge/`.  Python strings are modelled by
`String` (with helper operations defined over `String.data : List Char` so
that everything evaluates structurally), JSON-optional values by `Option`,
and numeric confidences by `Rat`.
-/

namespace Smokeforge

/-- Helper: Python `s.strip()` — drop whitespace from both ends. -/
def strTrim (s : String) : String :=
  ⟨((s.data.dropWhile Char.isWhitespace).reverse.dropWhile Char.isWhitespace).reverse⟩

/-- Helper: Python `s.startswith(p)`. -/
def strStarts (s p : String) : Bool := p.data.isPrefixOf s.data

/-- Helper: Python `s.endswith(p)` (also the `...\s*$`-anchored regex match
on an already-stripped string). -/
def strEnds (s p : String) : Bool := p.data.isSuffixOf s.data

/-- Helper: Python `needle in hay` on lists of characters. -/
def listInfix (pat : List Char) : List Char → Bool
  | [] => pat.isEmpty
  | c :: rest => pat.isPrefixOf (c :: rest) || listInfix pat rest

/-- Helper: Python `needle in hay` for strings. -/
def strContains (hay needle : String) : Bool := listInfix needle.data hay.data

/-- Helper: Python `s.lower()` (ASCII-adequate for the identifiers involved). -/
def strLower (s : String) : String := ⟨s.data.map Char.toLower⟩

/-! ## Document model (§3 of the spec, as the Python scripts read the JSON) -/

/-- One entry of `requestBody.fields`. -/
structure BodyField where
  name : String
  required : Bool
deriving DecidableEq, Repr

/-- `requestBody` object: the scripts only consult its `fields` list
(`body.get("fields", [])`, so a missing key is the empty list). -/
structure RequestBody where
  fields : List BodyField
deriving DecidableEq, Repr

/-- An endpoint as consumed by the scripts. -/
structure Endpoint where
  id : String
  method : String
  path : String
  requestBody : Option RequestBody
deriving DecidableEq, Repr

/-- A locator as consumed by `audit_locators.py` / `check_locators.py` /
`validate_chunks.py`.  `confidence = none` models an absent JSON key. -/
structure Locator where
  name : String
  strategy : String
  playwrightCode : String
  isInteractive : Bool
  isConditional : Bool
  flags : List String
  confidence : Option Rat
deriving DecidableEq, Repr

/-! ## C1 — BODY_BLEED (audit_blueprints.py lines 47-49,
validate_blueprints.py lines 182-190) -/

/-- `fields = (ep.get("requestBody") or {}).get("fields", [])`
(audit_blueprints.py lines 24-27). -/
def epFields (ep : Endpoint) : List BodyField :=
  match ep.requestBody with
  | none => []
  | some rb => rb.fields

/-- audit_blueprints.py line 48: `if method in READ_METHODS and fields:`
with `READ_METHODS = {"GET", "DELETE", "HEAD"}`. -/
def auditBodyBleed (ep : Endpoint) : Bool :=
  (ep.method == "GET" || ep.method == "DELETE" || ep.method == "HEAD")
    && !(epFields ep).isEmpty

/-- validate_blueprints.py lines 184-187 (`validate_nextjs`):
`if method in ("GET", "DELETE", "HEAD", "OPTIONS"):`
`  if ep.get("requestBody") is not None: issue("BODY_BLEED", ...)`. -/
def validateBodyBleed (ep : Endpoint) : Bool :=
  (ep.method == "GET" || ep.method == "DELETE" || ep.method == "HEAD"
      || ep.method == "OPTIONS")
    && ep.requestBody.isSome

/-- C1: for a GET (or DELETE/HEAD) endpoint with non-null `requestBody`,
validation (validate_blueprints.py, whose `issue` call makes the finding
BLOCKING) emits BODY_BLEED; with null `requestBody` no script ever emits it,
whatever the other fields hold. -/
theorem bodyBleed_roundTrip (ep : Endpoint)
    (hm : ep.method = "GET" ∨ ep.method = "DELETE" ∨ ep.method = "HEAD") :
    (ep.requestBody ≠ none → validateBodyBleed ep = true) ∧
    (ep.requestBody = none →
      validateBodyBleed ep = false ∧ auditBodyBleed ep = false) := by
  rcases hm with h | h | h <;>
    cases hrb : ep.requestBody <;>
      simp [validateBodyBleed, auditBodyBleed, epFields, h, hrb]

/-- Witness for `bodyBleed_roundTrip` at a concrete GET endpoint carrying a
(non-null, even field-less) request body. -/
theorem bodyBleed_roundTrip_witness :
    validateBodyBleed ⟨"e1", "GET", "/items", some ⟨[]⟩⟩ = true :=
  (bodyBleed_roundTrip ⟨"e1", "GET", "/items", some ⟨[]⟩⟩ (Or.inl rfl)).1
    (by decide)

/-! ## C8 — exit status (validate_blueprints.py lines 459-462,
audit_blueprints.py lines 97-100) -/

/-- audit_blueprints.py line 100: `sys.exit(1 if total_errors > 0 else 0)` —
warnings (the lower-severity bucket) are not consulted. -/
def auditExitCode (totalErrors totalWarnings : Nat) : Nat :=
  if totalErrors > 0 then 1 else 0

/-- validate_blueprints.py line 462: `sys.exit(1 if issues_total > 0 else 0)`
where only `issue(...)` (the BLOCKING ❌ bucket) increments `issues_total`;
`warn(...)` does not. -/
def validateExitCode (issuesTotal : Nat) : Nat :=
  if issuesTotal > 0 then 1 else 0

/-- C8: the process exit status is success (0) iff the run produced zero
BLOCKING findings (`errors` / `issues`), and lower-severity warnings alone
never cause a failure status. -/
theorem exitCode_success_iff_no_blocking (e w : Nat) :
    (auditExitCode e w = 0 ↔ e = 0) ∧
    (validateExitCode e = 0 ↔ e = 0) ∧
    auditExitCode 0 w = 0 := by
  unfold auditExitCode validateExitCode
  refine ⟨?_, ?_, by simp⟩ <;> split <;> omega

/-! ## C9 — page-root prefix check (check_locators.py lines 48-50) -/

/-- check_locators.py lines 49-50:
`if code and not code.startswith('page.') and not code.startswith('//') and
not code.startswith('#'):` → "MISSING page. prefix" bad-locator entry. -/
def missingPageRootFlag (code : String) : Bool :=
  !(code == "") && !(strStarts code "page.") && !(strStarts code "//")
    && !(strStarts code "#")

/-- C9: a non-empty selector code beginning with `//` or `#` is never flagged
for a missing page-root prefix; a non-empty code beginning with none of
`page.`, `//`, `#` is always flagged. -/
theorem missingPageRoot_cases (code : String) :
    ((strStarts code "//" = true ∨ strStarts code "#" = true) →
      missingPageRootFlag code = false) ∧
    (code ≠ "" → strStarts code "page." = false → strStarts code "//" = false →
      strStarts code "#" = false → missingPageRootFlag code = true) := by
  constructor
  · rintro (h | h) <;> simp [missingPageRootFlag, h]
  · intro h0 h1 h2 h3
    simp [missingPageRootFlag, h1, h2, h3, h0]

/-- Witness for `missingPageRoot_cases`: an xpath selector `//div` is not
flagged, and a bare `getByRole(...)`-style code is flagged. -/
theorem missingPageRoot_cases_witness :
    missingPageRootFlag "//div" = false ∧
    missingPageRootFlag "getByRole(x)" = true :=
  ⟨(missingPageRoot_cases "//div").1 (Or.inl (by decide)),
   (missingPageRoot_cases "getByRole(x)").2 (by decide) (by decide) (by decide)
     (by decide)⟩

/-! ## C10 — low-confidence thresholds (validate_chunks.py lines 85-86,
131-132, 145-146) -/

/-- validate_chunks.py lines 46/85-86: `confidence = ep.get("confidence", 0)`;
`if confidence < 0.6: row_issues.append(f"LOW_CONFIDENCE:...")`. -/
def epLowConfidence (confidence : Option Rat) : Bool :=
  decide (confidence.getD 0 < 6/10)

/-- validate_chunks.py lines 120/131-132: `confidence_loc = loc.get("confidence", 0)`;
`if confidence_loc < 0.5: ... LOCATOR_LOW_CONFIDENCE`. -/
def locLowConfidence (confidence : Option Rat) : Bool :=
  decide (confidence.getD 0 < 1/2)

/-- validate_chunks.py lines 111/145-146: page confidence (default 0) below
0.6 → `PAGE_LOW_CONFIDENCE`. -/
def pageLowConfidence (confidence : Option Rat) : Bool :=
  decide (confidence.getD 0 < 6/10)

/-- C10: endpoints and pages are flagged exactly when confidence is strictly
below 0.6, locators strictly below 0.5; an absent confidence is read as 0
and therefore flagged; values at or above the threshold are never flagged. -/
theorem lowConfidence_thresholds (c : Rat) :
    (epLowConfidence none = true ∧ locLowConfidence none = true ∧
      pageLowConfidence none = true) ∧
    (c < 6/10 → epLowConfidence (some c) = true ∧
      pageLowConfidence (some c) = true) ∧
    (6/10 ≤ c → epLowConfidence (some c) = false ∧
      pageLowConfidence (some c) = false) ∧
    (c < 1/2 → locLowConfidence (some c) = true) ∧
    (1/2 ≤ c → locLowConfidence (some c) = false) := by
  simp only [epLowConfidence, locLowConfidence, pageLowConfidence,
    Option.getD_none, Option.getD_some, decide_eq_true_eq,
    decide_eq_false_iff_not, not_lt]
  norm_num

/-- Witness for `lowConfidence_thresholds` at confidence 0.55: endpoint and
page flagged, locator not. -/
theorem lowConfidence_thresholds_witness :
    epLowConfidence (some (11/20)) = true ∧
    locLowConfidence (some (11/20)) = false := by
  have h := lowConfidence_thresholds (11/20)
  exact ⟨(h.2.1 (by norm_num)).1, h.2.2.2.2 (by norm_num)⟩

/-! ## Scoring (confidence_score.py lines 81-114) and
AUTH_INCOMPLETE (audit_blueprints.py lines 58-66) -/

/-- The auth object as read by audit_blueprints.py: each field is a JSON
string that Python treats as missing when absent (`none`) or falsy (`""`). -/
structure AuditAuth where
  tokenType : Option String
  typeField : Option String
  loginEndpoint : Option String
deriving DecidableEq, Repr

/-- Python `x or d` for an optional string `x`: `None` and `""` fall through. -/
def pyOr (o : Option String) (d : String) : String :=
  match o with
  | none => d
  | some s => if s == "" then d else s

/-- audit_blueprints.py line 58:
`token_type = auth.get("tokenType") or auth.get("type") or "MISSING"`
(with `auth = b.get("auth") or {}`, so a null auth reads as all-missing). -/
def auditTokenType : Option AuditAuth → String
  | none => "MISSING"
  | some a => pyOr a.tokenType (pyOr a.typeField "MISSING")

/-- audit_blueprints.py line 59:
`login_ep = auth.get("loginEndpoint") or "MISSING"`. -/
def auditLoginEndpoint : Option AuditAuth → String
  | none => "MISSING"
  | some a => pyOr a.loginEndpoint "MISSING"

/-- audit_blueprints.py lines 65-66:
`if "MISSING" in [token_type, login_ep]: errors.append("AUTH_INCOMPLETE ...")`. -/
def auditAuthIncomplete (auth : Option AuditAuth) : Bool :=
  auditTokenType auth == "MISSING" || auditLoginEndpoint auth == "MISSING"

/-- The auth object as read by confidence_score.py (lines 32-38):
`auth.get(...)` with Python falsiness on the string values. -/
structure ScoreAuth where
  tokenType : Option String
  defaultEmail : Option String
  tokenResponsePath : Option String
deriving DecidableEq, Repr

/-- Python falsiness of an optional string (`not auth.get(...)`). -/
def pyFalsy (o : Option String) : Bool :=
  match o with
  | none => true
  | some s => s == ""

/-- The inputs the scoring loop of confidence_score.py has accumulated when
it reaches line 81. -/
structure ScoreInput where
  auth : Option ScoreAuth
  epZeroGetFk : Nat
  epCrossChunkFk : Nat
  epPageRoutes : Nat
  noLocPages : Nat
deriving DecidableEq, Repr

/-- confidence_score.py lines 84-93: the auth block subtracts 20 when auth is
null, otherwise 15 when `defaultEmail` is falsy plus 5 when the token type is
`bearer_jwt` with no `tokenResponsePath`. -/
def authPenalty : Option ScoreAuth → Int
  | none => 20
  | some a =>
      (if pyFalsy a.defaultEmail then 15 else 0) +
      (if (a.tokenType.getD "NONE") == "bearer_jwt"
          && pyFalsy a.tokenResponsePath then 5 else 0)

/-- confidence_score.py lines 81-112: `score = 100` followed by the guarded
subtractions (`-5` per unresolvable required FK, `-2` per cross-chunk FK,
page routes capped via `min(ep_page_routes * 3, 15)`, `-2` per page without
locators). -/
def rawScore (i : ScoreInput) : Int :=
  100 - authPenalty i.auth
    - (if 0 < i.epZeroGetFk then 5 * (i.epZeroGetFk : Int) else 0)
    - (if 0 < i.epCrossChunkFk then 2 * (i.epCrossChunkFk : Int) else 0)
    - (if 0 < i.epPageRoutes then min (3 * (i.epPageRoutes : Int)) 15 else 0)
    - (if 0 < i.noLocPages then 2 * (i.noLocPages : Int) else 0)

/-- confidence_score.py line 114: `score = max(0, min(100, score))`. -/
def confidenceScore (i : ScoreInput) : Int :=
  max 0 (min 100 (rawScore i))

/-- C4: a null auth config yields the AUTH_INCOMPLETE finding
(audit_blueprints.py), and — absent any other penalized finding — the
confidence score is exactly 80, the 100 baseline minus exactly 20. -/
theorem nullAuth_score80 (i : ScoreInput) (hauth : i.auth = none)
    (h1 : i.epZeroGetFk = 0) (h2 : i.epCrossChunkFk = 0)
    (h3 : i.epPageRoutes = 0) (h4 : i.noLocPages = 0) :
    auditAuthIncomplete none = true ∧ confidenceScore i = 80 := by
  refine ⟨by decide, ?_⟩
  simp [confidenceScore, rawScore, authPenalty, hauth, h1, h2, h3, h4]

/-- Witness for `nullAuth_score80` at the concrete all-clean, auth-less
input. -/
theorem nullAuth_score80_witness :
    auditAuthIncomplete none = true ∧
    confidenceScore ⟨none, 0, 0, 0, 0⟩ = 80 :=
  nullAuth_score80 ⟨none, 0, 0, 0, 0⟩ rfl rfl rfl rfl rfl

/-- C5: the score is monotone non-increasing in findings — one more BLOCKING
unresolvable-required-FK finding on an input already penalized for that
category can only lower (never raise) the clamped score. -/
theorem score_monotone_blocking (i : ScoreInput) (hk : 1 ≤ i.epZeroGetFk) :
    confidenceScore { i with epZeroGetFk := i.epZeroGetFk + 1 } ≤
      confidenceScore i := by
  have hraw : rawScore { i with epZeroGetFk := i.epZeroGetFk + 1 } ≤
      rawScore i := by
    simp only [rawScore]
    have hpos : 0 < i.epZeroGetFk := hk
    rw [if_pos hpos, if_pos (Nat.lt_of_lt_of_le hpos (Nat.le_succ _))]
    push_cast
    omega
  exact max_le_max le_rfl (min_le_min le_rfl hraw)

/-- Witness for `score_monotone_blocking`: going from one to two unresolvable
required FKs (auth present and complete) cannot raise the score. -/
theorem score_monotone_blocking_witness :
    confidenceScore ⟨some ⟨some "session_cookie", some "a@b.c", none⟩, 2, 0, 0, 0⟩ ≤
      confidenceScore ⟨some ⟨some "session_cookie", some "a@b.c", none⟩, 1, 0, 0, 0⟩ :=
  score_monotone_blocking ⟨some ⟨some "session_cookie", some "a@b.c", none⟩, 1, 0, 0, 0⟩
    (by decide)

/-! ## C7 — Blueprint↔Chunk completeness (deep_validate.py lines 232-240) -/

/-- deep_validate.py lines 201-218 accumulate `ep_ids_in_chunks` as the union
of the chunks' id sets; this folds those sets together. -/
def chunkIdUnion (chunkSets : List (Finset String)) : Finset String :=
  chunkSets.foldl (· ∪ ·) ∅

lemma mem_chunkIdUnion (chunkSets : List (Finset String)) (acc : Finset String)
    (x : String) :
    x ∈ chunkSets.foldl (· ∪ ·) acc ↔ x ∈ acc ∨ ∃ c ∈ chunkSets, x ∈ c := by
  induction chunkSets generalizing acc with
  | nil => simp
  | cons h t ih =>
      simp only [List.foldl_cons, ih, Finset.mem_union, List.mem_cons]
      constructor
      · rintro ((hx | hx) | ⟨c, hc, hxc⟩)
        · exact Or.inl hx
        · exact Or.inr ⟨h, Or.inl rfl, hx⟩
        · exact Or.inr ⟨c, Or.inr hc, hxc⟩
      · rintro (hx | ⟨c, hc | hc, hxc⟩)
        · exact Or.inl (Or.inl hx)
        · exact Or.inl (Or.inr (hc ▸ hxc))
        · exact Or.inr ⟨c, hc, hxc⟩

/-- deep_validate.py line 233: `missing_ep = ep_ids_in_bp - ep_ids_in_chunks`
(a Python set difference; line 234 computes `missing_pg` identically for
pages, so this one definition covers both ORPHANED_ENDPOINT and
ORPHANED_PAGE). -/
def missingIds (bpIds : Finset String) (chunkSets : List (Finset String)) :
    Finset String :=
  bpIds \ chunkIdUnion chunkSets

/-- C7: when the union of the chunks' id sets is missing exactly one id `m`
present in the blueprint, the set difference is exactly `{m}` — one
ORPHANED_ENDPOINT (resp. ORPHANED_PAGE) finding, naming that id. -/
theorem orphaned_singleton (bpIds : Finset String)
    (chunkSets : List (Finset String)) (m : String) (hm : m ∈ bpIds)
    (hmiss : ∀ c ∈ chunkSets, m ∉ c)
    (hrest : ∀ x ∈ bpIds, x ≠ m → ∃ c ∈ chunkSets, x ∈ c) :
    missingIds bpIds chunkSets = {m} ∧
    (missingIds bpIds chunkSets).card = 1 := by
  have hset : missingIds bpIds chunkSets = {m} := by
    ext x
    simp only [missingIds, chunkIdUnion, Finset.mem_sdiff,
      mem_chunkIdUnion, Finset.not_mem_empty, false_or, not_exists,
      Finset.mem_singleton, not_and]
    constructor
    · rintro ⟨hx, hnc⟩
      by_contra hne
      obtain ⟨c, hc, hxc⟩ := hrest x hx hne
      exact hnc c hc hxc
    · rintro rfl
      exact ⟨hm, fun c hc => hmiss c hc⟩
  exact ⟨hset, by rw [hset]; simp⟩

/-- Witness for `orphaned_singleton`: blueprint ids `{a, b}`, one chunk
covering only `b` — the difference is exactly `{a}`. -/
theorem orphaned_singleton_witness :
    missingIds {"a", "b"} [{"b"}] = {"a"} ∧
    (missingIds {"a", "b"} [{"b"}]).card = 1 :=
  orphaned_singleton {"a", "b"} [{"b"}] "a" (by decide) (by decide)
    (by decide)

/-! ## C2 — DUPLICATE_ON_PAGE (audit_locators.py lines 27-56) -/

/-- audit_locators.py lines 27-31: `pw_codes_on_page` maps each non-empty
stripped `playwrightCode` to the names of all locators on the page carrying
it; this is the lookup `pw_codes_on_page[pw]` for a key `pw`. -/
def pwCodesOnPage (locs : List Locator) (pw : String) : List String :=
  if pw = "" then []
  else ((locs.filter (fun l => strTrim l.playwrightCode == pw)).map Locator.name)

/-- audit_locators.py lines 33-34 and 54-56: for EACH locator whose stripped
code is non-empty and shared by more than one locator on the page, a
`DUPLICATE_ON_PAGE` problem is appended, listing `pw_codes_on_page[pw]`
(every sharing locator's name).  A finding is modelled as the pair of the
flagged locator's name and that shared-name list. -/
def duplicateOnPageFindings (locs : List Locator) : List (String × List String) :=
  locs.filterMap (fun l =>
    let pw := strTrim l.playwrightCode
    if pw ≠ "" ∧ 1 < (pwCodesOnPage locs pw).length then
      some (l.name, pwCodesOnPage locs pw)
    else none)

/-- Two locators on one page sharing the selector code `page.x`. -/
def dupLocA : Locator :=
  ⟨"save", "css", "page.x", false, false, [], none⟩

/-- Second locator with the same selector code as `dupLocA`. -/
def dupLocB : Locator :=
  ⟨"submit", "css", "page.x", false, false, [], none⟩

/-- C2 counterexample: for the pair `dupLocA`/`dupLocB` with identical
selector code, the audit emits TWO `DUPLICATE_ON_PAGE` findings (one per
locator), not exactly one per pair as the claim states. -/
theorem duplicateOnPage_counterexample :
    (duplicateOnPageFindings [dupLocA, dupLocB]).length = 2 ∧
    (duplicateOnPageFindings [dupLocA, dupLocB]).length ≠ 1 := by
  constructor <;> decide

/-- C2 amended: every locator whose non-empty stripped selector code is
shared by two or more locators on the page yields its own
`DUPLICATE_ON_PAGE` finding (so a sharing pair yields two findings), and
each such finding lists the names of all locators sharing that code. -/
theorem duplicateOnPage_perLocator (locs : List Locator) (l : Locator)
    (hl : l ∈ locs) (hpw : strTrim l.playwrightCode ≠ "")
    (hdup : 1 < (pwCodesOnPage locs (strTrim l.playwrightCode)).length) :
    (l.name, pwCodesOnPage locs (strTrim l.playwrightCode)) ∈
      duplicateOnPageFindings locs ∧
    ∀ l2 ∈ locs, strTrim l2.playwrightCode = strTrim l.playwrightCode →
      l2.name ∈ pwCodesOnPage locs (strTrim l.playwrightCode) := by
  constructor
  · refine List.mem_filterMap.mpr ⟨l, hl, ?_⟩
    simp only
    rw [if_pos ⟨hpw, hdup⟩]
  · intro l2 hl2 heq
    unfold pwCodesOnPage
    rw [if_neg hpw]
    exact List.mem_map.mpr ⟨l2, List.mem_filter.mpr ⟨hl2, by simp [heq]⟩, rfl⟩

/-- Witness for `duplicateOnPage_perLocator` at the concrete sharing pair:
`dupLocA`'s finding is present and lists both names. -/
theorem duplicateOnPage_perLocator_witness :
    (dupLocA.name, pwCodesOnPage [dupLocA, dupLocB] (strTrim dupLocA.playwrightCode)) ∈
      duplicateOnPageFindings [dupLocA, dupLocB] ∧
    pwCodesOnPage [dupLocA, dupLocB] (strTrim dupLocA.playwrightCode) =
      ["save", "submit"] :=
  ⟨(duplicateOnPage_perLocator [dupLocA, dupLocB] dupLocA (by decide)
      (by decide) (by decide)).1, by decide⟩

/-! ## C6 — UNQUALIFIED_ROLE (audit_locators.py lines 45-52) -/

/-- The single-quote character of the regex, written out once. -/
def apos : String := "\x27"

/-- The alternation of interactive role types in the regex of
audit_locators.py line 48. -/
def interactiveRoles : List String :=
  ["textbox", "combobox", "spinbutton", "button", "link", "checkbox",
   "radio", "tab", "menuitem"]

/-- The literal the regex `getByRole\('(...)'\)\s*$` requires at the end of
the (already stripped) code, for a given captured role. -/
def rolePat (r : String) : String :=
  ("getByRole(" ++ apos ++ r ++ apos) ++ ")"

/-- audit_locators.py lines 47-50: `re.search(r"getByRole\('(textbox|...)'\)\s*$", pw)`
on the stripped code — a match iff the code ends with `getByRole('<role>')`
for one of the interactive roles. -/
def unqualifiedRoleMatch (pw : String) : Bool :=
  interactiveRoles.any (fun r => strEnds pw (rolePat r))

/-- audit_locators.py line 51: `if unqualified_match and is_inter:` →
`UNQUALIFIED_ROLE` problem (the code is stripped at line 34 before the
search). -/
def emitsUnqualifiedRole (loc : Locator) : Bool :=
  unqualifiedRoleMatch (strTrim loc.playwrightCode) && loc.isInteractive

/-- audit_locators.py lines 109-112: the categories counted as strict
failures ("will throw on first attempt"), i.e. the BLOCKING bucket. -/
def strictFailureKeys : List String :=
  ["UNQUALIFIED_ROLE", "DUPLICATE_ON_PAGE", "DYNAMIC_LIST_INTERACTIVE"]

/-- A role selector qualified with a `name:` option, e.g.
`page.getByRole('button', { name: 'Save' })`. -/
def roleWithName (r n : String) : String :=
  ("page.getByRole(" ++ apos ++ r ++ apos ++ ", \x7b name: " ++ apos ++ n
    ++ apos) ++ " \x7d)"

/-- C6: a role-strategy locator whose stripped selector is a bare
`page.getByRole('<interactive role>')` with `isInteractive=true` gets the
UNQUALIFIED_ROLE problem (a strict/BLOCKING category), while one whose
selector carries a qualifying `name:` option never does. -/
theorem unqualifiedRole_rule (r n : String) (hr : r ∈ interactiveRoles)
    (loc₁ loc₂ : Locator) (h1s : loc₁.strategy = "role")
    (h1c : strTrim loc₁.playwrightCode = "page." ++ rolePat r)
    (h1i : loc₁.isInteractive = true) (h2s : loc₂.strategy = "role")
    (h2c : strTrim loc₂.playwrightCode = roleWithName r n) :
    emitsUnqualifiedRole loc₁ = true ∧
    "UNQUALIFIED_ROLE" ∈ strictFailureKeys ∧
    emitsUnqualifiedRole loc₂ = false := by
  refine ⟨?_, by decide, ?_⟩
  · unfold emitsUnqualifiedRole
    rw [h1c, h1i, Bool.and_true]
    refine List.any_eq_true.mpr ⟨r, hr, ?_⟩
    simp only [strEnds, String.data_append, List.isSuffixOf_iff_suffix]
    exact List.suffix_append _ _
  · unfold emitsUnqualifiedRole
    rw [h2c]
    have hmatch : unqualifiedRoleMatch (roleWithName r n) = false := by
      unfold unqualifiedRoleMatch
      rw [List.any_eq_false]
      intro r2 hr2
      simp only [strEnds, List.isSuffixOf_iff_suffix, Bool.not_eq_true]
      intro hsuf
      have hpre := List.reverse_prefix.mpr hsuf
      have e1 : (apos : String).data = ['\x27'] := rfl
      have e2 : ((")" : String)).data = [')'] := rfl
      have e3 : ((" \x7d)" : String)).data = [' ', '}', ')'] := rfl
      rw [rolePat, roleWithName] at hpre
      simp only [String.data_append, e1, e2, e3, List.reverse_append,
        List.reverse_cons, List.reverse_nil, List.nil_append,
        List.cons_append, List.append_assoc] at hpre
      rw [List.cons_prefix_cons] at hpre
      obtain ⟨-, hpre⟩ := hpre
      rw [List.cons_prefix_cons] at hpre
      exact absurd hpre.1 (by decide)
    rw [hmatch, Bool.false_and]

/-- A concrete interactive locator with a bare `getByRole('button')`. -/
def roleLocBare : Locator :=
  ⟨"saveBtn", "role", "page.getByRole(\x27button\x27)", true, false, [], none⟩

/-- A concrete locator whose role selector is qualified with a name. -/
def roleLocQualified : Locator :=
  ⟨"saveBtnNamed", "role",
    "page.getByRole(\x27button\x27, \x7b name: \x27Save\x27 \x7d)", true,
    false, [], none⟩

/-- Witness for `unqualifiedRole_rule` at the two concrete locators. -/
theorem unqualifiedRole_rule_witness :
    emitsUnqualifiedRole roleLocBare = true ∧
    "UNQUALIFIED_ROLE" ∈ strictFailureKeys ∧
    emitsUnqualifiedRole roleLocQualified = false :=
  unqualifiedRole_rule "button" "Save" (by decide) roleLocBare
    roleLocQualified rfl (by decide) rfl rfl (by decide)

/-! ## C3 — FK resolvability (check_fk_coverage.py lines 29-55,
confidence_score.py lines 59-71) -/

/-- Python `s.replace(pat, "")`: remove every leftmost, non-overlapping
occurrence of `pat` (fuelled by the input length so that it is structurally
recursive; the patterns used, `Id` and `ID`, are non-empty). -/
def removeOcc (pat : List Char) : Nat → List Char → List Char
  | _, [] => []
  | 0, l => l
  | fuel + 1, c :: rest =>
      if !pat.isEmpty && pat.isPrefixOf (c :: rest) then
        removeOcc pat fuel ((c :: rest).drop pat.length)
      else c :: removeOcc pat fuel rest

/-- Python `s.replace(pat, "")` on strings. -/
def strRemoveAll (s pat : String) : String :=
  ⟨removeOcc pat.data s.data.length s.data⟩

/-- check_fk_coverage.py line 42: `fname.endswith("Id") or fname.endswith("ID")`. -/
def isFkName (fname : String) : Bool := strEnds fname "Id" || strEnds fname "ID"

/-- check_fk_coverage.py line 44:
`resource = fname.replace("Id", "").replace("ID", "").lower()` — note that
Python `replace` removes EVERY occurrence, not just a suffix. -/
def fkResource (fname : String) : String :=
  strLower (strRemoveAll (strRemoveAll fname "Id") "ID")

/-- check_fk_coverage.py lines 32-38: the GET endpoints whose chunk domain
(`ep_to_domain.get(e["id"])`) equals this endpoint's domain
(`ep_to_domain.get(ep["id"], "?")`), projected to their paths. -/
def sameChunkGetPaths (eps : List Endpoint) (domOf : String → Option String)
    (ep : Endpoint) : List String :=
  ((eps.filter (fun e =>
      domOf e.id == some ((domOf ep.id).getD "?") && e.method == "GET")).map
    Endpoint.path)

/-- check_fk_coverage.py line 45:
`can_resolve = any(resource in p.lower() for p in get_paths)`. -/
def canResolve (eps : List Endpoint) (domOf : String → Option String)
    (ep : Endpoint) (fname : String) : Bool :=
  (sameChunkGetPaths eps domOf ep).any
    (fun p => strContains (strLower p) (fkResource fname))

/-- check_fk_coverage.py lines 40-53: a field lands in `required_gaps` iff it
has an FK name, same-chunk resolution fails, and the field is required. -/
def requiredFkGap (eps : List Endpoint) (domOf : String → Option String)
    (ep : Endpoint) (f : BodyField) : Bool :=
  isFkName f.name && !(canResolve eps domOf ep f.name) && f.required

/-- The candidate-resource derivation as the claim words it: strip the
`Id`/`ID` SUFFIX and lower-case (for comparison with the source's
`fkResource`). -/
def claimFkResource (fname : String) : String :=
  if isFkName fname then strLower ⟨fname.data.take (fname.data.length - 2)⟩
  else strLower fname

/-- Severity categories for a required FK that does not resolve in its own
chunk. -/
inductive FkCat where
  | crossChunk
  | unresolvable
deriving DecidableEq, Repr

/-- Modelled from the spec: the step that decides between
`REQUIRED_FK_CROSS_CHUNK` and `REQUIRED_FK_UNRESOLVABLE` lives in the
packaging tool that writes FK hints into the chunk messages, which is not
under src (confidence_score.py lines 59-71 only count the pre-written
"CROSS-CHUNK" / "no list endpoint found" hint lines).  Following §4.3 of the
spec: a required FK resolving in the same chunk yields no finding; otherwise
a matching GET anywhere in the blueprint yields `REQUIRED_FK_CROSS_CHUNK`
(LIKELY), else `REQUIRED_FK_UNRESOLVABLE` (BLOCKING).  The candidate
derivation is the source's (check_fk_coverage.py line 44). -/
def fkFindingFor (eps : List Endpoint) (domOf : String → Option String)
    (ep : Endpoint) (fname : String) : Option FkCat :=
  if canResolve eps domOf ep fname then none
  else if (eps.filter (fun e => e.method == "GET")).any
      (fun e => strContains (strLower e.path) (fkResource fname)) then
    some FkCat.crossChunk
  else some FkCat.unresolvable

/-- A POST endpoint with required FK field `userIdeaId`. -/
def fkEpPost : Endpoint := ⟨"e1", "POST", "/ideas", some ⟨[⟨"userIdeaId", true⟩]⟩⟩

/-- A GET endpoint in the same chunk whose path contains the suffix-stripped
candidate `useridea`. -/
def fkEpGet : Endpoint := ⟨"e2", "GET", "/userideas", none⟩

/-- The two endpoints above. -/
def fkDemoEps : List Endpoint := [fkEpPost, fkEpGet]

/-- Both demo endpoints packaged into the same chunk/domain. -/
def fkDemoDom : String → Option String := fun _ => some "ideas"

/-- C3 counterexample: for the field `userIdeaId`, stripping the suffix and
lower-casing gives `useridea`, and a same-chunk GET (`/userideas`) contains
that candidate — so per the claim no FK finding should be emitted.  But the
code removes EVERY `Id`/`ID` occurrence, producing candidate `userea`, finds
no match, and reports the required-FK gap. -/
theorem fkResolve_counterexample :
    claimFkResource "userIdeaId" = "useridea" ∧
    strContains (strLower "/userideas") (claimFkResource "userIdeaId") = true ∧
    fkResource "userIdeaId" = "userea" ∧
    requiredFkGap fkDemoEps fkDemoDom fkEpPost ⟨"userIdeaId", true⟩ = true := by
  refine ⟨by decide, by decide, by decide, by decide⟩

/-- C3 amended: the candidate resource name is derived by removing every
occurrence of `Id` and then `ID` and lower-casing (not only a suffix); with
that candidate, a required FK field that resolves against a same-chunk GET
path yields no finding, and otherwise check_fk_coverage reports the required
gap, which the spec-modelled cross-chunk pass refines into
`REQUIRED_FK_CROSS_CHUNK` (LIKELY) when some blueprint-wide GET path matches
and `REQUIRED_FK_UNRESOLVABLE` (BLOCKING) when none does. -/
theorem fkResolve_amended (eps : List Endpoint)
    (domOf : String → Option String) (ep : Endpoint) (f : BodyField)
    (hfk : isFkName f.name = true) (hreq : f.required = true) :
    (canResolve eps domOf ep f.name = true →
      requiredFkGap eps domOf ep f = false ∧
      fkFindingFor eps domOf ep f.name = none) ∧
    (canResolve eps domOf ep f.name = false →
      requiredFkGap eps domOf ep f = true ∧
      ((eps.filter (fun e => e.method == "GET")).any
          (fun e => strContains (strLower e.path) (fkResource f.name)) = true →
        fkFindingFor eps domOf ep f.name = some FkCat.crossChunk) ∧
      ((eps.filter (fun e => e.method == "GET")).any
          (fun e => strContains (strLower e.path) (fkResource f.name)) = false →
        fkFindingFor eps domOf ep f.name = some FkCat.unresolvable)) := by
  constructor
  · intro h
    simp [requiredFkGap, fkFindingFor, h]
  · intro h
    refine ⟨by simp [requiredFkGap, hfk, hreq, h], ?_, ?_⟩ <;> intro h2 <;>
      simp [fkFindingFor, h, h2]

/-- The Scenario-B endpoint: `POST /orders` with required `customerId` and no
GET anywhere. -/
def fkEpOrders : Endpoint :=
  ⟨"o1", "POST", "/orders", some ⟨[⟨"customerId", true⟩]⟩⟩

/-- Blueprint holding only the orders POST endpoint. -/
def fkOrdersEps : List Endpoint := [fkEpOrders]

/-- Domain assignment for the orders demo. -/
def fkOrdersDom : String → Option String := fun _ => some "orders"

/-- Witness for `fkResolve_amended`: `customerId` on `POST /orders` with no
GET anywhere is reported as a required gap and classified unresolvable. -/
theorem fkResolve_amended_witness :
    requiredFkGap fkOrdersEps fkOrdersDom fkEpOrders ⟨"customerId", true⟩ = true ∧
    fkFindingFor fkOrdersEps fkOrdersDom fkEpOrders "customerId" =
      some FkCat.unresolvable := by
  have h := (fkResolve_amended fkOrdersEps fkOrdersDom fkEpOrders
    ⟨"customerId", true⟩ (by decide) (by decide)).2 (by decide)
  exact ⟨h.1, h.2.2 (by decide)⟩

end Smokeforge
